import Mathlib

/-
Verification development for the RbnVfdDisplay repository.

The development shallowly embeds the two core components:
  * the observation parser and the streaming arm of the connection-manager
    task (src/rbn-vfd-linux/src/services/rbn_client.rs), and
  * the aggregation store (src/src/services/spot_store.rs).

Modelling conventions, used throughout:
  * f64 values are modelled exactly as `Option ℚ` where `none` is NaN and
    `some q` is the exact finite value.  The model has unbounded precision
    (no rounding of decimal literals, no overflow to infinity) and
    identifies -0.0 with 0.0.  All concrete values appearing in the
    theorems below are exactly representable in f64, so the model and
    f64 agree on them.
  * `Instant` and `Duration` are modelled as natural numbers of seconds;
    an instant counts from the monotonic-clock epoch (boot, on Linux).
    Subtracting a duration from an instant panics in Rust when it would
    reach back past that epoch; `instantSub` models this panic as `none`.
  * Rust character classes are modelled on ASCII, which covers every
    character class decision made by the theorems below.
-/

/- ===== Character classes of the spot regex (ASCII model) ===== -/

/-- Whitespace, the regex class backslash-s restricted to ASCII. -/
def isSpaceCh (c : Char) : Bool :=
  (c == (' ')) || (c == ('\t')) || (c == ('\n')) || (c == ('\r')) ||
  (c == ('\x0b')) || (c == ('\x0c'))

/-- Non-whitespace, the regex class backslash-S. -/
def isNonSpaceCh (c : Char) : Bool := !(isSpaceCh c)

/-- Decimal digit, the regex class backslash-d restricted to ASCII. -/
def isDigitCh (c : Char) : Bool := (('0') ≤ c) && (c ≤ ('9'))

/-- Word character, the regex class backslash-w restricted to ASCII. -/
def isWordCh (c : Char) : Bool := c.isAlpha || c.isDigit || (c == ('_'))

/- ===== Generic pieces of the matcher ===== -/

/-- Longest non-empty run of characters satisfying `p` at the head of the
input, together with the rest; `none` when the run would be empty.  This is
the unique viable way a greedy one-or-more class repetition can match here,
because in the spot pattern every such repetition is followed by a piece
that can never match a character of the repeated class (see `matchTail`). -/
def run1 (p : Char → Bool) (l : List Char) : Option (List Char × List Char) :=
  match l.takeWhile p with
  | [] => none
  | _ :: _ => some (l.takeWhile p, l.dropWhile p)

/-- Match a literal character sequence at the head of the input and return
the rest, or `none`. -/
def stripLit : List Char → List Char → Option (List Char)
  | [], r => some r
  | _ :: _, [] => none
  | c :: cs, d :: ds => if c == d then stripLit cs ds else none

/-- Bool test that `pre` is an initial segment of `l`; models Rust
`str::starts_with`. -/
def startsWithChars : List Char → List Char → Bool
  | [], _ => true
  | _ :: _, [] => false
  | c :: cs, d :: ds => (c == d) && startsWithChars cs ds

/- ===== The spot regex, specialised =====

The source compiles the fixed pattern

  DX de (S+):s+(d+.?d*)s+(S+)s+(w+)s+(d+)s+dB s+(d+)s+WPM

(writing S, s, d, w for the escaped classes and . for the escaped dot)
and searches each line with it (leftmost-first, unanchored).  For this
particular pattern the backtracking search at a fixed start position is
deterministic: every greedy repetition is followed either by a literal
character outside the repeated class or by a class disjoint from the
repeated one, so each repetition has exactly one viable extent.  In
particular the piece `(S+):` can only match when the maximal non-space run
ends in a colon, with the capture being the run minus that final colon,
because the following `s+` requires a whitespace character immediately
after the colon.  The functions below implement exactly that search. -/

/-- The six capture groups of the spot regex, as character lists. -/
structure Caps where
  spotter : List Char
  freq : List Char
  target : List Char
  mode : List Char
  snr : List Char
  wpm : List Char
deriving DecidableEq

/-- Capture of the piece `(S+):` out of the maximal non-space run: the run
must end in a colon and contain at least one more character. -/
def capColon (run : List Char) : Option (List Char) :=
  if (run.getLast? == some (':')) && decide (2 ≤ run.length) then
    some run.dropLast
  else none

/-- Greedy match of `.?d*` after the integer part `d1`, returning the
frequency capture and the rest of the input. -/
def fracPart (d1 : List Char) (r : List Char) : List Char × List Char :=
  match r with
  | ('.') :: t => (d1 ++ ('.') :: t.takeWhile isDigitCh, t.dropWhile isDigitCh)
  | _ => (d1, r)

/-- Match the spot pattern immediately after its literal head `DX de `. -/
def matchTail (l : List Char) : Option Caps := do
  let (run, r1) ← run1 isNonSpaceCh l
  let cap1 ← capColon run
  let (_, r2) ← run1 isSpaceCh r1
  let (d1, r3) ← run1 isDigitCh r2
  let (cap2, r4) := fracPart d1 r3
  let (_, r5) ← run1 isSpaceCh r4
  let (cap3, r6) ← run1 isNonSpaceCh r5
  let (_, r7) ← run1 isSpaceCh r6
  let (cap4, r8) ← run1 isWordCh r7
  let (_, r9) ← run1 isSpaceCh r8
  let (cap5, r10) ← run1 isDigitCh r9
  let (_, r11) ← run1 isSpaceCh r10
  let r12 ← stripLit (('d') :: ('B') :: []) r11
  let (_, r13) ← run1 isSpaceCh r12
  let (cap6, r14) ← run1 isDigitCh r13
  let (_, r15) ← run1 isSpaceCh r14
  let _ ← stripLit (('W') :: ('P') :: ('M') :: []) r15
  pure ⟨cap1, cap2, cap3, cap4, cap5, cap6⟩

/-- The literal head of the spot pattern, `DX de ` (with trailing space). -/
def dxdeSp : List Char :=
  ('D') :: ('X') :: (' ') :: ('d') :: ('e') :: (' ') :: []

/-- The five-character string `DX de` tested by `parse_spot_line`, without
the trailing space. -/
def dxde : List Char :=
  ('D') :: ('X') :: (' ') :: ('d') :: ('e') :: []

/-- Unanchored leftmost-first search of the spot pattern: the first start
position whose match attempt succeeds wins; models `Regex::captures`. -/
def findCaps : List Char → Option Caps
  | [] => none
  | c :: t =>
    match stripLit dxdeSp (c :: t) with
    | some r =>
      match matchTail r with
      | some caps => some caps
      | none => findCaps t
    | none => findCaps t

/- ===== Numeric field parsing ===== -/

/-- Numeric value of an ASCII digit. -/
def digitVal (c : Char) : ℕ := c.toNat - 48

/-- Value of a non-empty ASCII digit string, most significant first;
models the value computed by Rust integer and float parsing on the
digit-only strings produced by the regex captures. -/
def natOfDigits (l : List Char) : ℕ :=
  l.foldl (fun a c => 10 * a + digitVal c) 0

/-- Rust `str::parse::<i32>` on a capture consisting of decimal digits
(no sign): the value when it fits in an i32, otherwise an error. -/
def parseI32 (l : List Char) : Option ℤ :=
  if natOfDigits l ≤ 2147483647 then some ((natOfDigits l : ℕ) : ℤ)
  else none

/-- Rust `str::parse::<f64>` on a capture of the shape digits, optional
dot, digits, in the exact-value model: this parse never fails on that
shape. -/
def parseF64 (l : List Char) : ℚ :=
  match l.dropWhile isDigitCh with
  | ('.') :: t =>
      (natOfDigits (l.takeWhile isDigitCh) : ℚ) +
        (natOfDigits (t.takeWhile isDigitCh) : ℚ) /
          (10 : ℚ) ^ (t.takeWhile isDigitCh).length
  | _ => (natOfDigits (l.takeWhile isDigitCh) : ℚ)

/- ===== The data model ===== -/

/-- Modelled from the spec: the `RawSpot` type lives in the repository
module `crate::models`, which is not among the provided source files.
Field names `spotted_callsign` and `frequency_khz` are pinned by their
uses in `spot_store.rs`; the constructor argument order (spotter, target,
frequency, SNR, speed, mode) is pinned by the call in `parse_spot_line`;
the remaining field types follow the RawObservation description in the
spec (section 3). -/
structure RawSpot where
  spotter_callsign : String
  spotted_callsign : String
  frequency_khz : Option ℚ
  snr : ℤ
  wpm : ℤ
  mode : String
deriving DecidableEq

/-- Characters stripped from the end of the spotter capture by
`trim_end_matches` in `parse_spot_line`. -/
def isStripCh (c : Char) : Bool := (c == ('-')) || (c == ('#')) || (c == (':'))

/-- Rust `str::trim_end_matches` for the spotter-suffix characters. -/
def trimEndRbn (l : List Char) : List Char :=
  (l.reverse.dropWhile isStripCh).reverse

/-- Assembly of a `RawSpot` from the regex captures, as in the tail of
`parse_spot_line`: the frequency parse cannot fail on the captured shape,
the SNR and speed parses fail on i32 overflow, and any failure drops the
line. -/
def mkSpotOfCaps : Option Caps → Option RawSpot
  | none => none
  | some c =>
    match parseI32 c.snr, parseI32 c.wpm with
    | some n, some w =>
        some ⟨String.mk (trimEndRbn c.spotter), String.mk c.target,
          some (parseF64 c.freq), n, w, String.mk c.mode⟩
    | _, _ => none

/-- The observation parser `parse_spot_line` of rbn_client.rs: reject any
line not starting with the five characters `DX de`, then search the line
with the spot regex and assemble the observation. -/
def parse_spot_line (line : String) : Option RawSpot :=
  if startsWithChars dxde line.data then mkSpotOfCaps (findCaps line.data)
  else none

/- ===== Connection manager: events and the streaming select arm ===== -/

/-- Messages sent from the RBN client task to the main app, as in
rbn_client.rs. -/
inductive RbnMessage where
  | Status (text : String)
  | Spot (raw : RawSpot)
  | Disconnected
deriving DecidableEq

/-- Outcome of one `read_line` call on the socket: a zero-length read
(connection closed), a line, or a read error with its message text. -/
inductive ReadResult where
  | closed
  | line (s : String)
  | readErr (e : String)
deriving DecidableEq

/-- Events sent by the streaming async block of `rbn_task` (the second
select arm) for one read outcome: on a zero-length read a Status and a
Disconnected message, on a line the parsed spot if any, on a read error a
Status message only. -/
def streamReadEvents : ReadResult → List RbnMessage
  | ReadResult.closed =>
      [RbnMessage.Status ("Connection closed"), RbnMessage.Disconnected]
  | ReadResult.line s =>
      match parse_spot_line s with
      | some sp => [RbnMessage.Spot sp]
      | none => []
  | ReadResult.readErr e =>
      [RbnMessage.Status (("Read error: ") ++ e)]

/-- The boolean the streaming async block returns, commented in the source
as the signal to clear the stream: true on a zero-length read or a read
error. -/
def streamReadSignal : ReadResult → Bool
  | ReadResult.closed => true
  | ReadResult.line _ => false
  | ReadResult.readErr _ => true

/-- One iteration of the `rbn_task` select loop taken through the
streaming arm (which fires only while a socket is open).  The arm pattern
is an underscore, discarding the boolean returned by the async block, and
the arm body is empty, so the `stream` variable is left exactly as it was:
the socket is never dropped by this arm.  Sockets are modelled as `Unit`
since only presence matters. -/
def streamArmStep (stream : Option Unit) (r : ReadResult) :
    Option Unit × List RbnMessage :=
  (stream, streamReadEvents r)

/- ===== Aggregation store (spot_store.rs) ===== -/

/-- Rust `Instant` minus `Duration`: defined when the duration does not
reach back past the monotonic-clock epoch, and a panic — modelled as
`none` — otherwise (the `Sub` impl unwraps `checked_sub`). -/
def instantSub (t d : ℕ) : Option ℕ := if d ≤ t then some (t - d) else none

/-- Modelled from the spec: the `AggregatedSpot` type lives in the
repository module `crate::models`, which is not among the provided source
files.  Field names `frequency_khz`, `highest_snr` and `last_spotted` are
pinned by their uses in `spot_store.rs`; the remaining fields follow the
AggregatedRecord description in the spec (section 3).  The timestamp is
an instant, a natural number of seconds since the monotonic epoch. -/
structure AggregatedSpot where
  spotted_callsign : String
  frequency_khz : Option ℚ
  highest_snr : ℤ
  last_spotted : ℕ
  mode : String
  wpm : ℤ
deriving DecidableEq

/-- Modelled from the spec: `AggregatedSpot::from_raw` is in the missing
`crate::models` module.  Per the spec, a new record is seeded from the
observation: displayed frequency is the exact observed frequency, highest
SNR is the observed SNR, the timestamp is the insertion time, and mode and
speed are the observed values.  The insertion time is an explicit
argument here, standing for the `Instant::now()` the source reads. -/
def AggregatedSpot.from_raw (raw : RawSpot) (now : ℕ) : AggregatedSpot :=
  ⟨raw.spotted_callsign, raw.frequency_khz, raw.snr, now, raw.mode, raw.wpm⟩

/-- Modelled from the spec: `AggregatedSpot::update` is in the missing
`crate::models` module.  Per the spec, a merge takes the maximum of the
existing and observed SNR, refreshes the timestamp to the merge time, and
overwrites mode and speed with the observed values; the displayed
frequency is never altered. -/
def AggregatedSpot.update (s : AggregatedSpot) (raw : RawSpot) (now : ℕ) :
    AggregatedSpot :=
  { s with
    highest_snr := max s.highest_snr raw.snr
    last_spotted := now
    mode := raw.mode
    wpm := raw.wpm }

/-- Half-away-from-zero rounding of a rational to an integer; this is
exactly `f64::round` in the exact-value model. -/
def roundAway (q : ℚ) : ℤ := if 0 ≤ q then ⌊q + 1 / 2⌋ else ⌈q - 1 / 2⌉

/-- Aggregation key of an observation.  The source renders the key as the
string of the target callsign, a vertical bar, and the rounded frequency
formatted with no decimals; since the rendered frequency contains no
vertical bar, equality of those strings coincides with componentwise
equality of this pair, so the key is modelled as the pair directly.  A NaN
frequency rounds to NaN and renders as a fixed string, modelled as `none`. -/
def spotKey (raw : RawSpot) : String × Option ℤ :=
  (raw.spotted_callsign, raw.frequency_khz.map roundAway)

/-- The spot store state: the map contents as an association list (update
in place preserves a record's position; a new record is appended) plus
whether the shared mutex is poisoned, in which case every `lock()` in the
source returns `Err`. -/
structure SpotStore where
  spots : List ((String × Option ℤ) × AggregatedSpot)
  poisoned : Bool
deriving DecidableEq

/-- A fresh store, as built by `SpotStore::new`. -/
def emptyStore : SpotStore := ⟨[], false⟩

/-- Lookup of a key in the map contents. -/
def lookupSpot (k : String × Option ℤ) :
    List ((String × Option ℤ) × AggregatedSpot) → Option AggregatedSpot
  | [] => none
  | (k2, s) :: t => if k2 = k then some s else lookupSpot k t

/-- In-place merge of an observation into the record stored under `k`. -/
def updateAssoc (k : String × Option ℤ) (raw : RawSpot) (now : ℕ) :
    List ((String × Option ℤ) × AggregatedSpot) →
    List ((String × Option ℤ) × AggregatedSpot)
  | [] => []
  | (k2, s) :: t =>
    if k2 = k then (k2, s.update raw now) :: t
    else (k2, s) :: updateAssoc k raw now t

/-- `SpotStore::add_spot`: compute the key from the target callsign and
the rounded frequency; under the lock, merge into the existing record for
that key or insert a fresh one.  On a poisoned lock the operation silently
does nothing. -/
def SpotStore.add_spot (st : SpotStore) (raw : RawSpot) (now : ℕ) : SpotStore :=
  if st.poisoned then st
  else
    match lookupSpot (spotKey raw) st.spots with
    | some _ => ⟨updateAssoc (spotKey raw) raw now st.spots, st.poisoned⟩
    | none => ⟨st.spots ++ [(spotKey raw, AggregatedSpot.from_raw raw now)], st.poisoned⟩

/-- `SpotStore::purge_old_spots`: compute the cutoff thirty minutes
(1800 seconds) before the call time — this instant subtraction happens
before the lock attempt and panics (`none`) when the monotonic clock has
been up for less than thirty minutes — then, under the lock, retain
exactly the records whose timestamp is at or after the cutoff.  On a
poisoned lock the retain step silently does nothing. -/
def SpotStore.purge_old_spots (st : SpotStore) (now : ℕ) : Option SpotStore :=
  match instantSub now 1800 with
  | none => none
  | some cutoff =>
    some (if st.poisoned then st
      else ⟨st.spots.filter (fun kv => decide (cutoff ≤ kv.2.last_spotted)), st.poisoned⟩)

/-- The resident records, in map order. -/
def SpotStore.values (st : SpotStore) : List AggregatedSpot :=
  st.spots.map Prod.snd

/-- The sort comparator of the frequency-ordered queries, which in the
source is `partial_cmp` on the frequencies followed by `unwrap`.  Its
value on a NaN input is never observed in a non-panicking run (the panic
itself is modelled in `sortByFreq`), so NaN is placed below every value to
make the comparator total. -/
def freqLe (a b : AggregatedSpot) : Bool :=
  match a.frequency_khz, b.frequency_khz with
  | some x, some y => decide (x ≤ y)
  | none, _ => true
  | some _, none => false

/-- `Vec::sort_by` with the unwrapped partial comparison on frequencies:
the comparator is invoked only when the vector has at least two elements,
and a comparison-based sort invokes it at least once on every element, so
the call panics exactly when the vector has at least two elements and one
of them has a NaN frequency; `none` models that panic. -/
def sortByFreq (l : List AggregatedSpot) : Option (List AggregatedSpot) :=
  if 2 ≤ l.length ∧ (∃ a ∈ l, a.frequency_khz = none) then none
  else some (l.mergeSort freqLe)

/-- `SpotStore::get_filtered_spots`: compute the cutoff `max_age` before
the call time — this instant subtraction happens before the lock attempt
and panics (`none`) when `max_age` exceeds the time since the monotonic
epoch — then, under the lock, keep the resident records with SNR at least
`min_snr` and timestamp at or after the cutoff, sorted ascending by
displayed frequency; a `none` result is a panic (of the cutoff
subtraction or of the sort comparator).  On a poisoned lock an empty
vector is returned. -/
def SpotStore.get_filtered_spots (st : SpotStore) (min_snr : ℤ)
    (max_age : ℕ) (now : ℕ) : Option (List AggregatedSpot) :=
  match instantSub now max_age with
  | none => none
  | some cutoff =>
    if st.poisoned then some []
    else
      sortByFreq (st.values.filter
        (fun s => decide (min_snr ≤ s.highest_snr) && decide (cutoff ≤ s.last_spotted)))

/-- `SpotStore::get_spots_by_frequency`: all resident records sorted
ascending by displayed frequency; `none` is the panic of the sort
comparator.  On a poisoned lock an empty vector is returned. -/
def SpotStore.get_spots_by_frequency (st : SpotStore) :
    Option (List AggregatedSpot) :=
  if st.poisoned then some [] else sortByFreq st.values

/-- The recency comparator: descending by timestamp, via the total `cmp`
on `Instant`. -/
def recencyLe (a b : AggregatedSpot) : Bool :=
  decide (b.last_spotted ≤ a.last_spotted)

/-- `SpotStore::get_spots_by_recency`: all resident records sorted
descending by timestamp; this sort cannot panic.  On a poisoned lock an
empty vector is returned. -/
def SpotStore.get_spots_by_recency (st : SpotStore) : List AggregatedSpot :=
  if st.poisoned then [] else st.values.mergeSort recencyLe

/-- `SpotStore::count`: the number of resident records, or zero on a
poisoned lock. -/
def SpotStore.count (st : SpotStore) : ℕ :=
  if st.poisoned then 0 else st.spots.length

/-- `SpotStore::clear`: remove every record; silently does nothing on a
poisoned lock. -/
def SpotStore.clear (st : SpotStore) : SpotStore :=
  if st.poisoned then st else ⟨[], st.poisoned⟩

/- ===== Helper lemmas ===== -/

/-- The frequency comparator is total. -/
theorem freqLe_total (a b : AggregatedSpot) :
    (freqLe a b || freqLe b a) = true := by
  unfold freqLe
  rcases a.frequency_khz with _ | x <;> rcases b.frequency_khz with _ | y <;> simp
  exact le_total x y

/-- The frequency comparator is transitive. -/
theorem freqLe_trans (a b c : AggregatedSpot) :
    freqLe a b = true → freqLe b c = true → freqLe a c = true := by
  unfold freqLe
  rcases a.frequency_khz with _ | x <;> rcases b.frequency_khz with _ | y <;>
    rcases c.frequency_khz with _ | z <;> simp
  exact le_trans

/-- Evaluation rule for `roundAway` on a non-negative rational. -/
theorem roundAway_eq_of (q : ℚ) (n : ℤ) (h0 : 0 ≤ q)
    (h1 : (n : ℚ) ≤ q + 1 / 2) (h2 : q + 1 / 2 < (n : ℚ) + 1) :
    roundAway q = n := by
  unfold roundAway
  rw [if_pos h0]
  exact Int.floor_eq_iff.mpr ⟨h1, h2⟩

/-- Membership in the value list comes from membership in the map. -/
theorem mem_values_of (st : SpotStore) (a : AggregatedSpot)
    (h : a ∈ st.values) : ∃ kv ∈ st.spots, kv.2 = a := by
  simpa [SpotStore.values] using h

/-- Evaluation rule for instant subtraction when it does not overflow. -/
theorem instantSub_of_le (t d : ℕ) (h : d ≤ t) :
    instantSub t d = some (t - d) := by
  rw [instantSub, if_pos h]

/- ===== Claims ===== -/

/-- C4 (counterexample): the line below does not start with the
six-character head `DX de ` (its sixth character is a colon), yet the
parser returns an observation, because the source checks only for the
five-character head `DX de` and the regex search is unanchored, matching
the second occurrence of `DX de ` inside the line. -/
theorem dxde_guard_cex :
    startsWithChars dxdeSp
        (("DX de:DX de W1AW: 14025.0 K1ABC CW 15 dB 25 WPM").data) = false ∧
      (parse_spot_line
        ("DX de:DX de W1AW: 14025.0 K1ABC CW 15 dB 25 WPM")).isSome = true := by
  exact ⟨by decide, by decide⟩

/-- C4 (amended): for every line that does not start with the five
characters `DX de` (without the trailing space), the parser returns no
observation.  Lines starting with `DX de` but not `DX de ` can still
yield an observation when the full pattern occurs later in the line. -/
theorem dxde_guard (line : String)
    (h : startsWithChars dxde line.data = false) :
    parse_spot_line line = none := by
  simp [parse_spot_line, h]

/-- C4 (witness): a concrete line rejected by the guard parses to
nothing. -/
theorem dxde_guard_witness :
    startsWithChars dxde (("CQ CQ de W1AW W1AW K")).data = false ∧
      parse_spot_line ("CQ CQ de W1AW W1AW K") = none :=
  ⟨by decide, dxde_guard ("CQ CQ de W1AW W1AW K") (by decide)⟩

/-- C5: the exact example line parses to spotter `W1AW` (the trailing
dash, hash and colon stripped), frequency 14025.0 kHz, target `K1ABC`,
mode `CW`, SNR 15 and speed 25 WPM. -/
theorem parse_example_line :
    parse_spot_line ("DX de W1AW-#:    14025.0  K1ABC   CW   15 dB   25 WPM") =
      some ⟨("W1AW"), ("K1ABC"), some ((14025 : ℚ)), 15, 25, ("CW")⟩ := by
  have hg : startsWithChars dxde
      (("DX de W1AW-#:    14025.0  K1ABC   CW   15 dB   25 WPM").data) = true := rfl
  have hc : findCaps
      (("DX de W1AW-#:    14025.0  K1ABC   CW   15 dB   25 WPM").data) =
      some ⟨("W1AW-#").data, ("14025.0").data, ("K1ABC").data, ("CW").data,
        ("15").data, ("25").data⟩ := rfl
  have h15 : parseI32 (("15").data) = some 15 := rfl
  have h25 : parseI32 (("25").data) = some 25 := rfl
  have hf0 : parseF64 (("14025.0").data) =
      ((14025 : ℕ) : ℚ) + ((0 : ℕ) : ℚ) / (10 : ℚ) ^ (1 : ℕ) := rfl
  have hf : parseF64 (("14025.0").data) = (14025 : ℚ) := by
    rw [hf0]; norm_num
  simp only [parse_spot_line, hg, if_true, hc, mkSpotOfCaps, h15, h25, hf]
  rfl

/-- C1 (code bug): in the streaming select arm, on a zero-length read the
task emits the Status and Disconnected events but the socket is left in
place, because the clear-stream boolean returned by the async block is
bound to an underscore and the arm body is empty; and on a read error
only a Status event is emitted, never a Disconnected event.  The claim
(socket discarded, state back to Idle, Disconnected always emitted)
fails on both points. -/
theorem stream_end_keeps_socket :
    (streamArmStep (some ()) ReadResult.closed).1 = some () ∧
      streamReadSignal ReadResult.closed = true ∧
      streamReadEvents ReadResult.closed =
        [RbnMessage.Status ("Connection closed"), RbnMessage.Disconnected] ∧
      (streamArmStep (some ()) (ReadResult.readErr ("connection reset"))).1 = some () ∧
      RbnMessage.Disconnected ∉
        streamReadEvents (ReadResult.readErr ("connection reset")) := by
  exact ⟨rfl, rfl, rfl, rfl, by decide⟩

/-- C9 (counterexample): on a poisoned store, the filtered query with a
`max_age` exceeding the time since the monotonic epoch panics (modelled
as `none`) instead of returning an empty vector, because the cutoff
subtraction at spot_store.rs line 45 runs before the lock attempt; so
not every read on a poisoned store degrades to an empty result. -/
theorem poisoned_overflow_panic_cex :
    ((⟨[((("K1"), some 7000),
          ⟨("K1"), some ((7000 : ℚ)), 20, 9000, ("CW"), 25⟩)], true⟩ :
        SpotStore).poisoned = true) ∧
      (⟨[((("K1"), some 7000),
          ⟨("K1"), some ((7000 : ℚ)), 20, 9000, ("CW"), 25⟩)], true⟩ :
        SpotStore).get_filtered_spots 0 20000 10000 = none :=
  ⟨rfl, rfl⟩

/-- C9 (amended): on a poisoned lock, for arguments whose cutoff
computations do not overflow the monotonic epoch (purge called at least
thirty minutes after it, filtered query with `max_age` at most the
elapsed time), the mutations leave the store unchanged and return
normally and the reads return an empty sequence or a zero count;
insert-or-merge, the two unfiltered queries, count and clear do so for
every argument.  When a cutoff computation overflows, purge and the
filtered query panic before reaching the lock. -/
theorem poisoned_best_effort (st : SpotStore) (raw : RawSpot)
    (t now : ℕ) (min_snr : ℤ) (max_age : ℕ) (hp : st.poisoned = true)
    (h30 : 1800 ≤ now) (hage : max_age ≤ now) :
    st.add_spot raw t = st ∧
      st.purge_old_spots now = some st ∧
      st.get_filtered_spots min_snr max_age now = some [] ∧
      st.get_spots_by_frequency = some [] ∧
      st.get_spots_by_recency = [] ∧
      st.count = 0 ∧
      st.clear = st := by
  refine ⟨?_, ?_, ?_, ?_, ?_, ?_, ?_⟩
  · simp [SpotStore.add_spot, hp]
  · rw [SpotStore.purge_old_spots, instantSub_of_le now 1800 h30]
    simp [hp]
  · rw [SpotStore.get_filtered_spots, instantSub_of_le now max_age hage]
    simp [hp]
  · simp [SpotStore.get_spots_by_frequency, hp]
  · simp [SpotStore.get_spots_by_recency, hp]
  · simp [SpotStore.count, hp]
  · simp [SpotStore.clear, hp]

/-- C9 (witness): a concrete poisoned store with one resident record, at
non-overflowing arguments, reports a zero count. -/
theorem poisoned_best_effort_witness :
    (⟨[((("K1"), some 7000),
        ⟨("K1"), some ((7000 : ℚ)), 20, 9000, ("CW"), 25⟩)], true⟩ :
      SpotStore).count = 0 :=
  (poisoned_best_effort _ ⟨("S"), ("K"), none, 1, 2, ("CW")⟩ 1 10000 3 600
    rfl (by norm_num) (by norm_num)).2.2.2.2.2.1

/-- C7: a purge at time `now` (at least thirty minutes past the
monotonic epoch, so the cutoff computation returns) completes, every
remaining record has a timestamp at or after the thirty-minute cutoff
(so every record strictly older than thirty minutes is absent), and
every record at or after the cutoff — in particular every record less
than thirty minutes old — is still resident. -/
theorem purge_retention (st : SpotStore) (now : ℕ)
    (hp : st.poisoned = false) (h30 : 1800 ≤ now) :
    (st.purge_old_spots now).isSome = true ∧
      ∀ st', st.purge_old_spots now = some st' →
        (∀ kv ∈ st'.spots, now - 1800 ≤ kv.2.last_spotted) ∧
          (∀ kv ∈ st.spots, now - 1800 ≤ kv.2.last_spotted →
            kv ∈ st'.spots) := by
  have hq : st.purge_old_spots now =
      some ⟨st.spots.filter (fun kv => decide (now - 1800 ≤ kv.2.last_spotted)),
        st.poisoned⟩ := by
    rw [SpotStore.purge_old_spots, instantSub_of_le now 1800 h30, hp]
    simp
  refine ⟨by rw [hq]; rfl, ?_⟩
  intro st' h
  rw [hq] at h
  injection h with h
  subst h
  constructor
  · intro kv hkv
    simp only [List.mem_filter, decide_eq_true_eq] at hkv
    exact hkv.2
  · intro kv hkv hle
    simp only [List.mem_filter, decide_eq_true_eq]
    exact ⟨hkv, hle⟩

/-- C7 (witness): purging a concrete store at time 10000 keeps the record
spotted 29 minutes earlier (timestamp 8260). -/
theorem purge_retention_witness :
    ((("K29"), some 14021),
        (⟨("K29"), some ((14021 : ℚ)), 20, 8260, ("CW"), 25⟩ : AggregatedSpot)) ∈
      ((((⟨[((("K31"), some 14020),
            ⟨("K31"), some ((14020 : ℚ)), 20, 8140, ("CW"), 25⟩),
          ((("K29"), some 14021),
            ⟨("K29"), some ((14021 : ℚ)), 20, 8260, ("CW"), 25⟩)], false⟩ :
        SpotStore).purge_old_spots 10000)).getD emptyStore).spots := by
  have h := purge_retention
    (⟨[((("K31"), some 14020),
          ⟨("K31"), some ((14020 : ℚ)), 20, 8140, ("CW"), 25⟩),
        ((("K29"), some 14021),
          ⟨("K29"), some ((14021 : ℚ)), 20, 8260, ("CW"), 25⟩)], false⟩ :
      SpotStore) 10000 rfl (by norm_num)
  exact (h.2 _ rfl).2
    ((("K29"), some 14021),
      ⟨("K29"), some ((14021 : ℚ)), 20, 8260, ("CW"), 25⟩)
    (List.mem_cons_of_mem _ (List.mem_cons_self _ _)) (by norm_num)

/-- C10: at a purge whose cutoff computation returns (call at least
thirty minutes past the monotonic epoch), a record whose timestamp
equals the cutoff exactly (thirty minutes old to the second) is
retained, because the retention comparison in the source is
`last_spotted >= cutoff`. -/
theorem purge_boundary (st : SpotStore) (now : ℕ)
    (kv : (String × Option ℤ) × AggregatedSpot)
    (hp : st.poisoned = false) (h30 : 1800 ≤ now) (hmem : kv ∈ st.spots)
    (heq : kv.2.last_spotted = now - 1800) :
    (st.purge_old_spots now).isSome = true ∧
      ∀ st', st.purge_old_spots now = some st' → kv ∈ st'.spots := by
  have hq : st.purge_old_spots now =
      some ⟨st.spots.filter (fun kv => decide (now - 1800 ≤ kv.2.last_spotted)),
        st.poisoned⟩ := by
    rw [SpotStore.purge_old_spots, instantSub_of_le now 1800 h30, hp]
    simp
  refine ⟨by rw [hq]; rfl, ?_⟩
  intro st' h
  rw [hq] at h
  injection h with h
  subst h
  simp only [List.mem_filter, decide_eq_true_eq, heq]
  exact ⟨hmem, le_refl _⟩

/-- C10 (witness): a record timestamped exactly 1800 seconds before a
purge at time 10000 is still resident afterwards. -/
theorem purge_boundary_witness :
    ((("K30"), some 14022),
        (⟨("K30"), some ((14022 : ℚ)), 20, 8200, ("CW"), 25⟩ : AggregatedSpot)) ∈
      ((((⟨[((("K30"), some 14022),
            ⟨("K30"), some ((14022 : ℚ)), 20, 8200, ("CW"), 25⟩)], false⟩ :
        SpotStore).purge_old_spots 10000)).getD emptyStore).spots := by
  have h := purge_boundary
    (⟨[((("K30"), some 14022),
          ⟨("K30"), some ((14022 : ℚ)), 20, 8200, ("CW"), 25⟩)], false⟩ :
      SpotStore) 10000
    ((("K30"), some 14022),
      ⟨("K30"), some ((14022 : ℚ)), 20, 8200, ("CW"), 25⟩)
    rfl (by norm_num) (List.mem_cons_self _ _) (by norm_num)
  exact h.2 _ rfl

/-- C6: inserting two observations with the same aggregation key, in
either order (the statement is symmetric in the two observations), leaves
a resident record whose highest SNR is the maximum of the two observed
SNR values. -/
theorem merge_snr_max (r1 r2 : RawSpot) (t1 t2 : ℕ)
    (hk : spotKey r1 = spotKey r2) :
    (lookupSpot (spotKey r2)
        (((emptyStore.add_spot r1 t1).add_spot r2 t2).spots)).map
        (fun s => s.highest_snr) = some (max r1.snr r2.snr) := by
  simp [SpotStore.add_spot, emptyStore, lookupSpot, ← hk, updateAssoc,
    AggregatedSpot.update, AggregatedSpot.from_raw]

/-- C6 (witness): SNR 10 then 5, and SNR 5 then 10, both leave a record
with highest SNR 10. -/
theorem merge_snr_max_witness :
    (lookupSpot (spotKey ⟨("S2"), ("K1ABC"), some ((14025 : ℚ)), 5, 22, ("CW")⟩)
        (((emptyStore.add_spot ⟨("S1"), ("K1ABC"), some ((14025 : ℚ)), 10, 20, ("CW")⟩ 3).add_spot
            ⟨("S2"), ("K1ABC"), some ((14025 : ℚ)), 5, 22, ("CW")⟩ 5).spots)).map
        (fun s => s.highest_snr) = some 10 ∧
      (lookupSpot (spotKey ⟨("S1"), ("K1ABC"), some ((14025 : ℚ)), 10, 20, ("CW")⟩)
        (((emptyStore.add_spot ⟨("S2"), ("K1ABC"), some ((14025 : ℚ)), 5, 22, ("CW")⟩ 3).add_spot
            ⟨("S1"), ("K1ABC"), some ((14025 : ℚ)), 10, 20, ("CW")⟩ 5).spots)).map
        (fun s => s.highest_snr) = some 10 := by
  constructor
  · rw [merge_snr_max ⟨("S1"), ("K1ABC"), some ((14025 : ℚ)), 10, 20, ("CW")⟩
        ⟨("S2"), ("K1ABC"), some ((14025 : ℚ)), 5, 22, ("CW")⟩ 3 5 rfl]
    rw [max_eq_left (by norm_num : (5 : ℤ) ≤ 10)]
  · rw [merge_snr_max ⟨("S2"), ("K1ABC"), some ((14025 : ℚ)), 5, 22, ("CW")⟩
        ⟨("S1"), ("K1ABC"), some ((14025 : ℚ)), 10, 20, ("CW")⟩ 3 5 rfl]
    rw [max_eq_right (by norm_num : (5 : ℤ) ≤ 10)]

/-- C3 (counterexample): the frequencies 14025.4 and 14025.6 for the same
target differ by 0.2 kHz, less than 0.5 kHz, yet they produce two
separate records, because they round to the different integers 14025 and
14026. -/
theorem bucket_lt_half_cex :
    ((140256 : ℚ) / 10 - (140254 : ℚ) / 10 < 1 / 2) ∧
      ((emptyStore.add_spot ⟨("S1"), ("K1ABC"), some ((140254 : ℚ) / 10), 10, 20, ("CW")⟩ 0).add_spot
          ⟨("S2"), ("K1ABC"), some ((140256 : ℚ) / 10), 12, 22, ("CW")⟩ 0).count = 2 := by
  have h1 : roundAway ((140254 : ℚ) / 10) = 14025 :=
    roundAway_eq_of _ _ (by norm_num) (by norm_num) (by norm_num)
  have h2 : roundAway ((140256 : ℚ) / 10) = 14026 :=
    roundAway_eq_of _ _ (by norm_num) (by norm_num) (by norm_num)
  refine ⟨by norm_num, ?_⟩
  simp [SpotStore.add_spot, emptyStore, lookupSpot, spotKey, h1, h2,
    SpotStore.count]

/-- C3 (amended): two observations for the same target callsign merge
into one record exactly when their frequencies round (half away from
zero) to the same integer kHz; a separation below 0.5 kHz does not
guarantee a merge, nor does a separation of 0.5 kHz or more guarantee
separate records. -/
theorem bucket_merge_iff (c sp1 sp2 m1 m2 : String) (f1 f2 : ℚ)
    (n1 n2 w1 w2 : ℤ) (t1 t2 : ℕ) :
    ((emptyStore.add_spot ⟨sp1, c, some f1, n1, w1, m1⟩ t1).add_spot
        ⟨sp2, c, some f2, n2, w2, m2⟩ t2).count = 1 ↔
      roundAway f1 = roundAway f2 := by
  by_cases h : roundAway f1 = roundAway f2
  · simp [SpotStore.add_spot, emptyStore, lookupSpot, spotKey, h,
      updateAssoc, SpotStore.count]
  · simp [SpotStore.add_spot, emptyStore, lookupSpot, spotKey, h,
      SpotStore.count]

/-- C2 (counterexample): inserting an observation whose frequency field
is NaN alongside an ordinary one makes the frequency-sorted query panic
(the sort comparator unwraps a `None` partial comparison), modelled here
as the query returning `none`; so not every operation is total for every
resident field value. -/
theorem sort_nan_panic_cex :
    ((emptyStore.add_spot ⟨("S1"), ("K1NAN"), none, 10, 20, ("CW")⟩ 0).add_spot
        ⟨("S2"), ("K2OK"), some ((14000 : ℚ)), 12, 22, ("CW")⟩ 0).get_spots_by_frequency =
      none := rfl

/-- C2 (amended): every store operation is total except that (a) the two
frequency-sorted queries panic exactly when at least two records reach
the sort and one of them has a NaN displayed frequency, and (b) purge
and the filtered query panic when their cutoff computation reaches back
past the monotonic-clock epoch (a purge within thirty minutes of the
epoch, or a `max_age` exceeding the elapsed time).  Away from those two
panic paths — no NaN resident, cutoffs in range, as in every state and
call this program produces after half an hour of uptime — the three
operations return normally; insert-or-merge, the recency query, count
and clear are total by construction. -/
theorem store_total_without_nan (st : SpotStore) (min_snr : ℤ)
    (max_age now : ℕ)
    (hn : ∀ kv ∈ st.spots, (kv.2).frequency_khz ≠ none)
    (hage : max_age ≤ now) (h30 : 1800 ≤ now) :
    (st.get_filtered_spots min_snr max_age now).isSome = true ∧
      (st.get_spots_by_frequency).isSome = true ∧
      (st.purge_old_spots now).isSome = true := by
  have hv : ∀ a ∈ st.values, a.frequency_khz ≠ none := by
    intro a ha
    obtain ⟨kv, hkv, rfl⟩ := mem_values_of st a ha
    exact hn kv hkv
  refine ⟨?_, ?_, ?_⟩
  · rw [SpotStore.get_filtered_spots, instantSub_of_le now max_age hage]
    by_cases hp : st.poisoned
    · simp [hp]
    · rw [Bool.not_eq_true] at hp
      have hcond : ¬ (2 ≤ (st.values.filter
          (fun s => decide (min_snr ≤ s.highest_snr) &&
            decide (now - max_age ≤ s.last_spotted))).length ∧
          ∃ a ∈ st.values.filter
            (fun s => decide (min_snr ≤ s.highest_snr) &&
              decide (now - max_age ≤ s.last_spotted)), a.frequency_khz = none) := by
        rintro ⟨-, a, ha, hnone⟩
        exact hv a (List.mem_of_mem_filter ha) hnone
      rw [hp]
      simp only [Bool.false_eq_true, if_false]
      rw [sortByFreq, if_neg hcond]
      rfl
  · by_cases hp : st.poisoned
    · simp [SpotStore.get_spots_by_frequency, hp]
    · rw [Bool.not_eq_true] at hp
      have hcond : ¬ (2 ≤ st.values.length ∧
          ∃ a ∈ st.values, a.frequency_khz = none) := by
        rintro ⟨-, a, ha, hnone⟩
        exact hv a ha hnone
      rw [SpotStore.get_spots_by_frequency, hp]
      simp only [Bool.false_eq_true, if_false]
      rw [sortByFreq, if_neg hcond]
      rfl
  · rw [SpotStore.purge_old_spots, instantSub_of_le now 1800 h30]
    rfl

/-- C2 (witness): the frequency-sorted queries and purge return normally
on a concrete two-record store with ordinary frequencies at
non-overflowing arguments. -/
theorem store_total_without_nan_witness :
    ((⟨[((("K1"), some 14025),
          ⟨("K1"), some ((14025 : ℚ)), 15, 9800, ("CW"), 25⟩),
        ((("K2"), some 7000),
          ⟨("K2"), some ((7000 : ℚ)), 25, 9700, ("CW"), 25⟩)], false⟩ :
      SpotStore).get_filtered_spots 0 3600 10000).isSome = true :=
  (store_total_without_nan _ 0 3600 10000 (by decide) (by norm_num)
    (by norm_num)).1

/-- C8 (counterexample): at `max_age` 20000 seconds with only 10000
seconds elapsed since the monotonic epoch, the filtered query panics
computing its cutoff (modelled as `none`) instead of returning the
resident recent strong record, so the query does not return the filtered
records for every `max_age`. -/
theorem filtered_overflow_panic_cex :
    (⟨[((("K3"), some 7000),
        ⟨("K3"), some ((7000 : ℚ)), 25, 9700, ("CW"), 25⟩)], false⟩ :
      SpotStore).get_filtered_spots 0 20000 10000 = none := rfl

/-- C8 (amended): in normal operation (lock not poisoned, no NaN
frequency resident) and for every `max_age` not exceeding the time since
the monotonic epoch, the filtered query returns a list that is a
permutation of exactly the resident records with highest SNR at least
`min_snr` and timestamp within `max_age` of the call time, arranged in
ascending order of displayed frequency; for larger `max_age` the cutoff
computation panics before the lock. -/
theorem filtered_query_exact (st : SpotStore) (min_snr : ℤ)
    (max_age now : ℕ) (hp : st.poisoned = false)
    (hn : ∀ kv ∈ st.spots, (kv.2).frequency_khz ≠ none)
    (hage : max_age ≤ now) :
    (st.get_filtered_spots min_snr max_age now).isSome = true ∧
      ∀ l, st.get_filtered_spots min_snr max_age now = some l →
        l.Perm (st.values.filter
          (fun s => decide (min_snr ≤ s.highest_snr) &&
            decide (now - max_age ≤ s.last_spotted))) ∧
        l.Pairwise (fun a b => freqLe a b = true) := by
  have hcond : ¬ (2 ≤ (st.values.filter
      (fun s => decide (min_snr ≤ s.highest_snr) &&
        decide (now - max_age ≤ s.last_spotted))).length ∧
      ∃ a ∈ st.values.filter
        (fun s => decide (min_snr ≤ s.highest_snr) &&
          decide (now - max_age ≤ s.last_spotted)), a.frequency_khz = none) := by
    rintro ⟨-, a, ha, hnone⟩
    obtain ⟨kv, hkv, rfl⟩ := mem_values_of st a (List.mem_of_mem_filter ha)
    exact hn kv hkv hnone
  have hq : st.get_filtered_spots min_snr max_age now =
      some ((st.values.filter
        (fun s => decide (min_snr ≤ s.highest_snr) &&
          decide (now - max_age ≤ s.last_spotted))).mergeSort freqLe) := by
    rw [SpotStore.get_filtered_spots, instantSub_of_le now max_age hage, hp]
    simp only [Bool.false_eq_true, if_false]
    rw [sortByFreq, if_neg hcond]
  refine ⟨by rw [hq]; rfl, ?_⟩
  intro l hl
  rw [hq] at hl
  cases hl
  exact ⟨List.mergeSort_perm _ freqLe,
    List.sorted_mergeSort freqLe_trans freqLe_total _⟩

/-- C8 (witness): on a concrete store mirroring the specification example
(min SNR 20, max age 10 minutes, now 10000: an SNR-15 record and an
11-minute-old record are excluded, a 5-minute-old SNR-25 record stays)
the query returns normally. -/
theorem filtered_query_exact_witness :
    ((⟨[((("K1"), some 14025),
          ⟨("K1"), some ((14025 : ℚ)), 15, 9800, ("CW"), 25⟩),
        ((("K2"), some 14030),
          ⟨("K2"), some ((14030 : ℚ)), 25, 9340, ("CW"), 25⟩),
        ((("K3"), some 7000),
          ⟨("K3"), some ((7000 : ℚ)), 25, 9700, ("CW"), 25⟩)], false⟩ :
      SpotStore).get_filtered_spots 20 600 10000).isSome = true :=
  (filtered_query_exact _ 20 600 10000 rfl (by decide) (by norm_num)).1
